import Mathlib

/-!
# expected lite (`include/nonstd/expected.hpp`)

A shallow embedding of `nonstd::expected<T,E>`, its union storage and
`nonstd::unexpected_type<E>`.

Conventions of the embedding.

* An object is the record of its data members.  A member function that changes
  `*this` is given by the object its body leaves behind; `swap` gives both
  objects.  The reference an assignment operator returns is not part of the
  embedding.
* A call ends in an `Outcome`: it returns, a failed `assert` stops it, it
  throws, its behaviour is undefined (a read of a union member that is not
  live, of a discriminant that was never written, the end of a function that
  returns a reference reached without a `return`), or the expression has no
  meaning at all (`ill_formed`).
* The header is template code: a function body is compiled as a whole for the
  types it is used with, before any call runs.  Where a body holds an expression
  that is ill-formed for those types, the function has no instantiation and
  every call of it is `ill_formed`, whatever the container holds.  `value`,
  `assign_copy`, `assign_move`, `swap` and `assign_value_body` give the
  statements of their bodies as they are written, branch by branch;
  `value_instantiated` and `assign_value` give the instantiated functions.
* `assert` is active (no `NDEBUG`).
* `std::move( x )` and `std::forward<U>( x )` pass `x` on; a moved-from operand
  is not tracked further.  `std::forward( x )` without a template argument is
  ill-formed.
* Conversions between `T` and `E` that a statement needs in order to
  instantiate are explicit function arguments.
-/

namespace nonstd

/-- The class `bad_expected_access<E>`. -/
structure bad_expected_access (E : Type) where
  m_error : E
  deriving DecidableEq, Repr

/-- `bad_expected_access<E>::error()` -/
def bad_expected_access.error {E : Type} (x : bad_expected_access E) : E := x.m_error

/-- The ways a call can end.  `E` is the error type of the container at hand. -/
inductive Outcome (E : Type) (α : Type) where
  /-- normal return -/
  | returned (a : α)
  /-- an `assert( ... )` failed -/
  | assertion_failure
  /-- `throw x`, for an `x` of class `bad_expected_access<error_type>` -/
  | thrown (x : bad_expected_access E)
  /-- `std::rethrow_exception( p )` -/
  | rethrown (p : E)
  /-- undefined behaviour -/
  | undefined
  /-- the expression does not denote anything -/
  | ill_formed
  deriving DecidableEq, Repr

namespace Outcome

variable {E α β : Type}

/-- Sequencing: the first call that does not return ends the whole body. -/
def andThen (x : Outcome E α) (f : α → Outcome E β) : Outcome E β :=
  match x with
  | returned a => f a
  | assertion_failure => assertion_failure
  | thrown x => thrown x
  | rethrown p => rethrown p
  | undefined => undefined
  | ill_formed => ill_formed

instance : Monad (Outcome E) where
  pure := returned
  bind := andThen

end Outcome

/-! ### constructs without a meaning -/

/-- The call `std::forward( x )`, written without a template argument.  The
parameter of `std::forward<U>` is `typename remove_reference<U>::type &`, from
which `U` is not deduced: no overload is viable and the call is ill-formed. -/
def forward_without_template_argument {E α : Type} (_x : α) : Outcome E α :=
  .ill_formed

/-- The closing brace of a function that returns `expected &`, reached without a
`return` statement: undefined behaviour. -/
def flows_off_the_end {E α : Type} : Outcome E α :=
  .undefined

/-- The type `std::result_of<F>::type` for a callable type `F` that is not written
`Fn( Args... )`: the primary template of `result_of` has no definition, so the
type does not exist and a declaration that names it is not viable. -/
def result_of_callable_type {E : Type} : Outcome E Unit :=
  .ill_formed

/-- The call `std::rethrow_exception( e )` with an `e` of type `error_type`:
well-formed when `error_type` converts to `std::exception_ptr`. -/
def rethrow_exception_argument {E : Type} (converts_to_exception_ptr : Bool) :
    Outcome E Unit :=
  if converts_to_exception_ptr then .returned () else .ill_formed

namespace expected_detail

/-- The union `storage_t<T,E>`: after its no-op constructor no member is live;
otherwise exactly the member constructed last is. -/
inductive storage_t (T E : Type) where
  | no_member
  | m_value (v : T)
  | m_error (e : E)
  deriving DecidableEq, Repr

namespace storage_t

variable {T E : Type}

/-- `storage_t() {}` -/
def ctor : storage_t T E := no_member

/-- `construct_value( v )`: placement new into `m_value`. -/
def construct_value (_s : storage_t T E) (v : T) : storage_t T E := m_value v

/-- `destruct_value()`: `m_value.~value_type()`. -/
def destruct_value : storage_t T E → Outcome E (storage_t T E)
  | m_value _ => .returned no_member
  | _ => .undefined

/-- `construct_error( e )`: placement new into `m_error`. -/
def construct_error (_s : storage_t T E) (e : E) : storage_t T E := m_error e

/-- `destruct_error()`: `m_error.~error_type()`. -/
def destruct_error : storage_t T E → Outcome E (storage_t T E)
  | m_error _ => .returned no_member
  | _ => .undefined

/-- `value()`: `return m_value;` -/
def value : storage_t T E → Outcome E T
  | m_value v => .returned v
  | _ => .undefined

/-- `value_type * value_ptr() const { return &m_value; }`: in the const member
function `&m_value` is a `value_type const *`, which does not convert to the
return type `value_type *`.  The body is ill-formed: the function has no
instantiation. -/
def value_ptr (_s : storage_t T E) : Outcome E T :=
  .ill_formed

/-- `error()`: `return m_error;` -/
def error : storage_t T E → Outcome E E
  | m_error e => .returned e
  | _ => .undefined

/-- The statement `value() = v;`: assignment through the reference `value()` returns. -/
def set_value : storage_t T E → T → Outcome E (storage_t T E)
  | m_value _, v => .returned (m_value v)
  | _, _ => .undefined

/-- The statement `error() = e;`: assignment through the reference `error()` returns. -/
def set_error : storage_t T E → E → Outcome E (storage_t T E)
  | m_error _, e => .returned (m_error e)
  | _, _ => .undefined

end storage_t

end expected_detail

open expected_detail

/-- The class `unexpected_type<E>`. -/
structure unexpected_type (E : Type) where
  m_error : E
  deriving DecidableEq, Repr

/-- `unexpected_type<E>::value()` -/
def unexpected_type.value {E : Type} (u : unexpected_type E) : E := u.m_error

/-- `make_unexpected( v )`: `return unexpected_type< decay<E>::type >( v );` -/
def make_unexpected {E : Type} (v : E) : unexpected_type E := ⟨v⟩

/-- The class `expected<T,E>`: its two data members.  `has_value` is `none` as long
as nothing was written to it. -/
structure expected (T E : Type) where
  has_value : Option Bool
  contained : storage_t T E
  deriving DecidableEq, Repr

namespace expected

variable {T E : Type}

/-- The container holds the value `v`: the discriminant is set and `m_value` is live. -/
def HoldsValue (v : T) : expected T E := ⟨some true, .m_value v⟩

/-- The container holds the error `e`: the discriminant is cleared and `m_error` is live. -/
def HoldsError (e : E) : expected T E := ⟨some false, .m_error e⟩

/-- The discriminant is defined and names the one member that is live. -/
def well_formed (c : expected T E) : Bool :=
  match c.has_value, c.contained with
  | some true, .m_value _ => true
  | some false, .m_error _ => true
  | _, _ => false

/-- A read of the data member `has_value`. -/
def read_has_value (c : expected T E) : Outcome E Bool :=
  match c.has_value with
  | some b => .returned b
  | none => .undefined

/-! ### constructors -/

/-- `expected() : has_value( true ) { contained.construct_value( value_type() ); }` -/
def ctor_default [Inhabited T] : expected T E :=
  ⟨some true, storage_t.ctor.construct_value default⟩

/-- `expected( expected const & rhs )` -/
def ctor_copy (rhs : expected T E) : Outcome E (expected T E) := do
  let has_value ← rhs.read_has_value
  if has_value then
    let v ← rhs.contained.value
    pure ⟨some has_value, storage_t.ctor.construct_value v⟩
  else
    let e ← rhs.contained.error
    pure ⟨some has_value, storage_t.ctor.construct_error e⟩

/-- `expected( expected && rhs )` -/
def ctor_move (rhs : expected T E) : Outcome E (expected T E) := do
  let has_value ← rhs.read_has_value
  if has_value then
    let v ← rhs.contained.value
    pure ⟨some has_value, storage_t.ctor.construct_value v⟩
  else
    let e ← rhs.contained.error
    pure ⟨some has_value, storage_t.ctor.construct_error e⟩

/-- `expected( value_type && rhs )` -/
def ctor_value_move (rhs : T) : expected T E :=
  ⟨some true, storage_t.ctor.construct_value rhs⟩

/-- `expected( in_place_t, Args&&... args )`; `make args` is `value_type( args... )`. -/
def ctor_in_place {Args : Type} (make : Args → T) (args : Args) : expected T E :=
  ⟨some true, storage_t.ctor.construct_value (make args)⟩

/-- `expected( unexpected_type<E> const & error )` -/
def ctor_unexpected (error : unexpected_type E) : expected T E :=
  ⟨some false, storage_t.ctor.construct_error error.value⟩

/-- `expected( unexpected_type<U> && error )`; `conv` is the conversion of `U` to `E`. -/
def ctor_unexpected_move {U : Type} (conv : U → E) (error : unexpected_type U) : expected T E :=
  ⟨some false, storage_t.ctor.construct_error (conv error.value)⟩

/-- `expected( unexpect_t, Args&&... args )`: the constructor has no initialiser for
`has_value`; `make args` is `error_type( args... )`. -/
def ctor_unexpect {Args : Type} (make : Args → E) (args : Args) : expected T E :=
  ⟨none, storage_t.ctor.construct_error (make args)⟩

/-! ### observers -/

/-- `operator bool()`: `return has_value;` -/
def to_bool (c : expected T E) : Outcome E Bool := c.read_has_value

/-- `operator ->()`: `assert( has_value ); return contained.value_ptr();`
The call of `value_ptr()` is compiled with the body, before the assert can run. -/
def arrow (c : expected T E) : Outcome E T := do
  let p ← c.contained.value_ptr
  if (← c.read_has_value) then pure p else .assertion_failure

/-- `operator *()`: `assert( has_value ); return contained.value();` -/
def deref (c : expected T E) : Outcome E T := do
  if (← c.read_has_value) then c.contained.value else .assertion_failure

/-- `value()`.  `same_as_exception_ptr` is
`std::is_same<error_type, std::exception_ptr>::value`. -/
def value (same_as_exception_ptr : Bool) (c : expected T E) : Outcome E T := do
  if (← c.read_has_value) then
    c.contained.value
  else if same_as_exception_ptr then
    let p ← c.contained.error
    .rethrown p
  else
    let e ← c.contained.error
    .thrown ⟨e⟩

/-- `value()` as it is instantiated for an error type.  The two arms of the inner
conditional are both compiled, whatever `is_same` says: the call
`std::rethrow_exception( contained.error() )` has to be well-formed, so
`error_type` has to convert to `std::exception_ptr`. -/
def value_instantiated (same_as_exception_ptr converts_to_exception_ptr : Bool)
    (c : expected T E) : Outcome E T := do
  rethrow_exception_argument converts_to_exception_ptr
  c.value same_as_exception_ptr

/-- `error()`: `assert( ! has_value ); return contained.error();` -/
def error (c : expected T E) : Outcome E E := do
  if !(← c.read_has_value) then c.contained.error else .assertion_failure

/-- `get_unexpected()`: `return make_unexpected( contained.error() );` -/
def get_unexpected (c : expected T E) : Outcome E (unexpected_type E) := do
  let e ← c.contained.error
  pure (make_unexpected e)

/-! ### assignment -/

/-- `operator=( expected const & rhs )`.

In the second branch the argument `error.value()` names the member function
`error` of the class, not an object: it denotes nothing.  In the third branch
`*rhs` is assigned to the error member; `conv` is the conversion of `T` to `E`
which that statement needs. -/
def assign_copy (same_as_exception_ptr : Bool) (conv : T → E) (self rhs : expected T E) :
    Outcome E (expected T E) := do
  let a ← self.to_bool
  let b ← rhs.to_bool
  let contained ←
    if a && b then do
      let v ← rhs.deref
      self.contained.set_value v
    else if a && !b then do
      let s ← self.contained.destruct_value
      let e ← (Outcome.ill_formed : Outcome E E)
      pure (s.construct_error e)
    else if !a && !b then do
      let v ← rhs.deref
      self.contained.set_error (conv v)
    else if !a && b then do
      let s ← self.contained.destruct_error
      let v ← rhs.value same_as_exception_ptr
      pure (s.construct_value v)
    else
      pure self.contained
  pure ⟨rhs.has_value, contained⟩

/-- `operator=( expected && rhs )`: the branches of the copy assignment with
`std::move` around each right-hand side. -/
def assign_move (same_as_exception_ptr : Bool) (conv : T → E) (self rhs : expected T E) :
    Outcome E (expected T E) := do
  let a ← self.to_bool
  let b ← rhs.to_bool
  let contained ←
    if a && b then do
      let v ← rhs.deref
      self.contained.set_value v
    else if a && !b then do
      let s ← self.contained.destruct_value
      let e ← (Outcome.ill_formed : Outcome E E)
      pure (s.construct_error e)
    else if !a && !b then do
      let v ← rhs.deref
      self.contained.set_error (conv v)
    else if !a && b then do
      let s ← self.contained.destruct_error
      let v ← rhs.value same_as_exception_ptr
      pure (s.construct_value v)
    else
      pure self.contained
  pure ⟨rhs.has_value, contained⟩

/-- The statements of the body of `operator=( U && v )`, for a `v` that has been
forwarded; `v` is given as the `T` it converts to. -/
def assign_value_body (self : expected T E) (v : T) : Outcome E (expected T E) := do
  if (← self.to_bool) then
    let s ← self.contained.set_value v
    pure ⟨self.has_value, s⟩
  else
    let s ← self.contained.destruct_error
    pure ⟨some true, s.construct_value v⟩

/-- `operator=( U && v )`.  Both branches forward `v` by `std::forward( v )`, without
a template argument, and the body ends without a `return` statement. -/
def assign_value (self : expected T E) (v : T) : Outcome E (expected T E) := do
  let w ← forward_without_template_argument v
  let _this ← self.assign_value_body w
  flows_off_the_end

/-- `operator=( unexpected_type<E> const & u )`.  The body ends without a `return`
statement. -/
def assign_unexpected (self : expected T E) (u : unexpected_type E) :
    Outcome E (expected T E) := do
  let _this ← (do
    if !(← self.to_bool) then
      let s ← self.contained.set_error u.value
      pure (⟨self.has_value, s⟩ : expected T E)
    else
      let s ← self.contained.destruct_value
      pure ⟨some false, s.construct_error u.value⟩)
  flows_off_the_end

/-- `operator=( unexpected_type<E> && u )`.  Both branches forward the error by
`std::forward( u.value() )`, without a template argument, and the body ends without
a `return` statement. -/
def assign_unexpected_move (self : expected T E) (u : unexpected_type E) :
    Outcome E (expected T E) := do
  let e ← forward_without_template_argument u.value
  let _this ← (do
    if !(← self.to_bool) then
      let s ← self.contained.set_error e
      pure (⟨self.has_value, s⟩ : expected T E)
    else
      let s ← self.contained.destruct_value
      pure ⟨some false, s.construct_error e⟩)
  flows_off_the_end

/-- `emplace( Args &&... args )`.  `args` is the pack and `make args` is
`value_type( args... )`.  The second branch passes the pack to
`construct_value`, which takes one `value_type`: the body is well-formed for a
pack of one argument that converts to `value_type`, by `conv`. -/
def emplace {A : Type} (make : List A → T) (conv : A → T) (self : expected T E)
    (args : List A) : Outcome E (expected T E) :=
  match args with
  | [a] => do
    if (← self.to_bool) then
      let s ← self.contained.set_value (make [a])
      pure ⟨self.has_value, s⟩
    else
      let s ← self.contained.destruct_error
      pure ⟨some true, s.construct_value (conv a)⟩
  | _ => .ill_formed

/-- `emplace( std::initializer_list<U> il, Args &&... args )`.  `make il args` is
`value_type( il, args... )`.  The second branch passes `il` and the pack to
`construct_value`, which takes one `value_type`: the body is well-formed for an
empty pack and an `il` that converts to `value_type`, by `conv`. -/
def emplace_il {U A : Type} (make : List U → List A → T) (conv : List U → T)
    (self : expected T E) (il : List U) (args : List A) : Outcome E (expected T E) :=
  match args with
  | [] => do
    if (← self.to_bool) then
      let s ← self.contained.set_value (make il [])
      pure ⟨self.has_value, s⟩
    else
      let s ← self.contained.destruct_error
      pure ⟨some true, s.construct_value (conv il)⟩
  | _ => .ill_formed

/-! ### swap -/

/-- `swap( expected & rhs )`; the result is the pair (`*this`, `rhs`) after the call.

In the third branch `*this = std::move( t )` assigns an `error_type` to the
container: of the assignment operators only `operator=( U && )` accepts it, with
the error converted to a `T` by `conv` (the constructor of `unexpected_type`
from an `E` is explicit).  The two assignments of that branch are read by the
statements of `operator=( U && )`, `assign_value_body`. -/
def swap (conv : E → T) (self rhs : expected T E) :
    Outcome E (expected T E × expected T E) :=
  match h₁ : self.has_value, h₂ : rhs.has_value with
  | some true, some true => do
    -- swap( contained.value(), rhs.contained.value() );
    let x ← self.contained.value
    let y ← rhs.contained.value
    let s ← self.contained.set_value y
    let r ← rhs.contained.set_value x
    pure (⟨self.has_value, s⟩, ⟨rhs.has_value, r⟩)
  | some false, some false => do
    -- swap( contained.error(), rhs.contained.error() );
    let x ← self.contained.error
    let y ← rhs.contained.error
    let s ← self.contained.set_error y
    let r ← rhs.contained.set_error x
    pure (⟨self.has_value, s⟩, ⟨rhs.has_value, r⟩)
  | some true, some false => do
    -- error_type t( std::move( rhs.error() ) );
    let t ← rhs.error
    -- rhs = std::move( *( *this ) );
    let v ← self.deref
    let rhs₁ ← rhs.assign_value_body v
    -- *this = std::move( t );
    let self₁ ← self.assign_value_body (conv t)
    -- swap( has_value, rhs.has_value );
    let a ← self₁.read_has_value
    let b ← rhs₁.read_has_value
    pure (⟨some b, self₁.contained⟩, ⟨some a, rhs₁.contained⟩)
  | some false, some true => do
    -- rhs.swap( *this );
    let (r, s) ← swap conv rhs self
    pure (s, r)
  | _, _ => .undefined
termination_by (if self.has_value = some false then 1 else 0)
decreasing_by simp [h₁, h₂]

/-- The free function `swap( x, y )`: `x.swap( y );` -/
def swap_free (conv : E → T) (x y : expected T E) :
    Outcome E (expected T E × expected T E) :=
  swap conv x y

end expected

/-! ### the standard library, as far as the header uses it -/

/-- The C++ types, as far as `std::is_base_of` tells them apart. -/
inductive cpp_type where
  /-- a class type that is not a union -/
  | class_type (name : String)
  /-- a scalar type, a union, an array, ... -/
  | other_type (name : String)
  /-- the reference type `t const &` -/
  | const_lvalue_ref (t : cpp_type)
  deriving DecidableEq, Repr

/-- The trait `std::is_base_of<Base, Derived>::value`: both are non-union class
types and `Base` is `Derived` or one of its base classes.  `inherits d b` tells
that the class `d` has the class `b` among its base classes. -/
def is_base_of (inherits : String → String → Bool) : cpp_type → cpp_type → Bool
  | .class_type b, .class_type d => b == d || inherits d b
  | _, _ => false

/-- The type `std::exception_ptr`, over the exception objects `X`: a handle is
null or refers to an exception object. -/
inductive exception_ptr (X : Type) where
  | null
  | refers_to (x : X)
  deriving DecidableEq, Repr

namespace exception_ptr

variable {X : Type}

/-- The `operator==` of two handles: both null, or both refer to the same object. -/
def eq [DecidableEq X] (p q : exception_ptr X) : Bool := decide (p = q)

/-- `std::current_exception()`; `handled` is the exception being handled, if any. -/
def current_exception : Option X → exception_ptr X
  | none => null
  | some x => refers_to x

end exception_ptr

/-! ### unexpected: relational operators -/

namespace unexpected_type

variable {E X : Type}

/-- `operator==( x, y )`: `x.value() == y.value()`; `eqE` is the `==` of `E`. -/
def eq (eqE : E → E → Bool) (x y : unexpected_type E) : Bool := eqE x.value y.value

/-- `operator!=( x, y )`: `! ( x == y )` -/
def ne (eqE : E → E → Bool) (x y : unexpected_type E) : Bool := !(eq eqE x y)

/-- `operator<( x, y )`: `x.value() < y.value()`; `ltE` is the `<` of `E`. -/
def lt (ltE : E → E → Bool) (x y : unexpected_type E) : Bool := ltE x.value y.value

/-- `operator>( x, y )`: `( y < x )` -/
def gt (ltE : E → E → Bool) (x y : unexpected_type E) : Bool := lt ltE y x

/-- `operator<=( x, y )`: `! ( y < x )` -/
def le (ltE : E → E → Bool) (x y : unexpected_type E) : Bool := !(lt ltE y x)

/-- `operator>=( x, y )`: `! ( x < y )` -/
def ge (ltE : E → E → Bool) (x y : unexpected_type E) : Bool := !(lt ltE x y)

/-- `operator==` at `unexpected_type<std::exception_ptr>`: the template above with
the `==` of the handles. -/
def eq_exception_ptr [DecidableEq X] (x y : unexpected_type (exception_ptr X)) : Bool :=
  eq exception_ptr.eq x y

/-- `operator<( unexpected_type<std::exception_ptr> const &, ... )`: `return false;` -/
def lt_exception_ptr (_x _y : unexpected_type (exception_ptr X)) : Bool := false

/-- `operator>( unexpected_type<std::exception_ptr> const &, ... )`: `return false;` -/
def gt_exception_ptr (_x _y : unexpected_type (exception_ptr X)) : Bool := false

/-- `operator<=( unexpected_type<std::exception_ptr> const &, ... )`: `return ( x == y );` -/
def le_exception_ptr [DecidableEq X] (x y : unexpected_type (exception_ptr X)) : Bool :=
  eq_exception_ptr x y

/-- `operator>=( unexpected_type<std::exception_ptr> const &, ... )`: `return ( x == y );` -/
def ge_exception_ptr [DecidableEq X] (x y : unexpected_type (exception_ptr X)) : Bool :=
  eq_exception_ptr x y

end unexpected_type

/-- `make_unexpected_from_current_exception()`:
`return unexpected_type< std::exception_ptr >( std::current_exception() );` -/
def make_unexpected_from_current_exception {X : Type} (handled : Option X) :
    unexpected_type (exception_ptr X) :=
  ⟨exception_ptr.current_exception handled⟩

namespace expected

variable {T E : Type}

/-- `expected( unexpect_t, std::initializer_list<U> il, Args&&... args )`: no
initialiser for `has_value` either; `make il args` is `error_type( il, args... )`. -/
def ctor_unexpect_il {U Args : Type} (make : List U → Args → E) (il : List U) (args : Args) :
    expected T E :=
  ⟨none, storage_t.ctor.construct_error (make il args)⟩

/-- The type `decltype( get_unexpected().value() )`: `value()` of an
`unexpected_type<E>` returns an `error_type const &`. -/
def get_unexpected_value_type (error_type : cpp_type) : cpp_type :=
  .const_lvalue_ref error_type

/-- `has_exception<Ex>()`:
`return ! (*this) && std::is_base_of< Ex, decltype( get_unexpected().value() ) >::value;`
`error_type` is the type `E` of the container. -/
def has_exception (inherits : String → String → Bool) (Ex error_type : cpp_type)
    (c : expected T E) : Outcome E Bool := do
  let b ← c.to_bool
  pure (!b && is_base_of inherits Ex (get_unexpected_value_type error_type))

/-- `value_or( U && v ) const &`:
`return has_value ? **this : static_cast<T>( std::forward<U>( v ) );`
`conv` is the conversion of `U` to `T`. -/
def value_or {U : Type} (conv : U → T) (c : expected T E) (v : U) : Outcome E T := do
  if (← c.read_has_value) then c.deref else pure (conv v)

/-- `value_or( U && v ) const &&`:
`return has_value ? std::move( **this ) : static_cast<T>( std::forward<U>( v ) );` -/
def value_or_move {U : Type} (conv : U → T) (c : expected T E) (v : U) : Outcome E T := do
  if (← c.read_has_value) then c.deref else pure (conv v)

/-! ### expected: relational operators -/

/-- `operator==( x, y )`:
`return bool(x) != bool(y) ? false : bool(x) == false ? true : *x == *y;`
`eqT` is the `==` of `T`. -/
def eq (eqT : T → T → Bool) (x y : expected T E) : Outcome E Bool := do
  let a ← x.to_bool
  let b ← y.to_bool
  if a != b then pure false
  else if a == false then pure true
  else
    let v ← x.deref
    let w ← y.deref
    pure (eqT v w)

/-- `operator!=( x, y )`: `return !(x == y);` -/
def ne (eqT : T → T → Bool) (x y : expected T E) : Outcome E Bool := do
  let r ← eq eqT x y
  pure (!r)

/-- `operator<( x, y )`: `return (!y) ? false : (!x) ? true : *x < *y;`
`ltT` is the `<` of `T`. -/
def lt (ltT : T → T → Bool) (x y : expected T E) : Outcome E Bool := do
  if !(← y.to_bool) then pure false
  else if !(← x.to_bool) then pure true
  else
    let v ← x.deref
    let w ← y.deref
    pure (ltT v w)

/-- `operator>( x, y )`: `return (y < x);` -/
def gt (ltT : T → T → Bool) (x y : expected T E) : Outcome E Bool :=
  lt ltT y x

/-- `operator<=( x, y )`: `return !(y < x);` -/
def le (ltT : T → T → Bool) (x y : expected T E) : Outcome E Bool := do
  let r ← lt ltT y x
  pure (!r)

/-- `operator>=( x, y )`: `return !(x < y);` -/
def ge (ltT : T → T → Bool) (x y : expected T E) : Outcome E Bool := do
  let r ← lt ltT x y
  pure (!r)

/-! ### expected: comparison with T -/

/-- `operator==( x, v )`: `return bool(x) ? *x == v : false;` -/
def eq_value (eqT : T → T → Bool) (x : expected T E) (v : T) : Outcome E Bool := do
  if (← x.to_bool) then
    let w ← x.deref
    pure (eqT w v)
  else pure false

/-- `operator==( v, x )`: `return bool(x) ? v == *x : false;` -/
def value_eq (eqT : T → T → Bool) (v : T) (x : expected T E) : Outcome E Bool := do
  if (← x.to_bool) then
    let w ← x.deref
    pure (eqT v w)
  else pure false

/-- `operator<( x, v )`: `return bool(x) ? *x < v : true;` -/
def lt_value (ltT : T → T → Bool) (x : expected T E) (v : T) : Outcome E Bool := do
  if (← x.to_bool) then
    let w ← x.deref
    pure (ltT w v)
  else pure true

/-- `operator<( v, x )`: `return bool(x) ? v < *x : false;` -/
def value_lt (ltT : T → T → Bool) (v : T) (x : expected T E) : Outcome E Bool := do
  if (← x.to_bool) then
    let w ← x.deref
    pure (ltT v w)
  else pure false

/-- `operator>( v, x )`: `return bool(x) ? *x < v : false;` -/
def value_gt (ltT : T → T → Bool) (v : T) (x : expected T E) : Outcome E Bool := do
  if (← x.to_bool) then
    let w ← x.deref
    pure (ltT w v)
  else pure false

/-- `operator>( x, v )`: `return bool(x) ? v < *x : false;` -/
def gt_value (ltT : T → T → Bool) (x : expected T E) (v : T) : Outcome E Bool := do
  if (← x.to_bool) then
    let w ← x.deref
    pure (ltT v w)
  else pure false

/-- `operator<=( v, x )`: `return bool(x) ? ! ( *x < v ) : false;` -/
def value_le (ltT : T → T → Bool) (v : T) (x : expected T E) : Outcome E Bool := do
  if (← x.to_bool) then
    let w ← x.deref
    pure (!(ltT w v))
  else pure false

/-- `operator<=( x, v )`: `return bool(x) ? ! ( v < *x ) : true;` -/
def le_value (ltT : T → T → Bool) (x : expected T E) (v : T) : Outcome E Bool := do
  if (← x.to_bool) then
    let w ← x.deref
    pure (!(ltT v w))
  else pure true

/-- `operator>=( x, v )`: `return bool(x) ? ! ( *x < v ) : false;` -/
def ge_value (ltT : T → T → Bool) (x : expected T E) (v : T) : Outcome E Bool := do
  if (← x.to_bool) then
    let w ← x.deref
    pure (!(ltT w v))
  else pure false

/-- `operator>=( v, x )`: `return bool(x) ? ! ( v < *x ) : true;` -/
def value_ge (ltT : T → T → Bool) (v : T) (x : expected T E) : Outcome E Bool := do
  if (← x.to_bool) then
    let w ← x.deref
    pure (!(ltT v w))
  else pure true

end expected

/-! ### factories -/

/-- `make_expected( v )`: `return expected< decay<T>::type >( std::forward( v ) );`
The argument is forwarded without a template argument. -/
def make_expected {T X : Type} (v : T) :
    Outcome (exception_ptr X) (expected T (exception_ptr X)) := do
  let w ← forward_without_template_argument v
  pure (expected.ctor_value_move w)

/-- `make_expected_from_call( f )`, declared to return
`expected< typename std::result_of<F>::type >`, with the body
`try { return make_expected( f() ); } catch (...) { return make_unexpected_from_current_exception(); }`
A call `f()` returns a result or raises an exception object; in the handler that
object is the exception being handled, and the `unexpected_type` is converted to
the container by `expected( unexpected_type<U> && )`. -/
def make_expected_from_call {R X : Type} (f : Unit → Except X R) :
    Outcome (exception_ptr X) (expected R (exception_ptr X)) := do
  result_of_callable_type
  match f () with
  | .ok r => make_expected r
  | .error x =>
    pure (expected.ctor_unexpected_move id (make_unexpected_from_current_exception (some x)))

end nonstd

/-! ### hash support -/

namespace std

/-- `std::hash<nonstd::expected<T>>::operator()( arg )`:
`return arg ? std::hash<T>{}(*arg) : result_type{};`
`hashT` is `std::hash<T>{}`; its `result_type` is `std::size_t`, value-initialised
to 0. -/
def hash {T X : Type} (hashT : T → Nat)
    (arg : nonstd.expected T (nonstd.exception_ptr X)) :
    nonstd.Outcome (nonstd.exception_ptr X) Nat := do
  if (← arg.to_bool) then
    let v ← arg.deref
    pure (hashT v)
  else pure 0

end std

/-- Of three truth values exactly one is true. -/
def exactly_one (a b c : Bool) : Bool :=
  (a && !b && !c) || (!a && b && !c) || (!a && !b && c)

/-! ## Properties -/

namespace nonstd

namespace expected

variable {T E : Type}

/-- A well-formed container holds a value or holds an error. -/
theorem well_formed_cases (c : expected T E) (h : c.well_formed = true) :
    (∃ v, c = HoldsValue v) ∨ (∃ e, c = HoldsError e) := by
  obtain ⟨d, s⟩ := c
  cases d with
  | none => simp [well_formed] at h
  | some b =>
    cases b <;> cases s <;> simp [well_formed] at h
    · exact Or.inr ⟨_, rfl⟩
    · exact Or.inl ⟨_, rfl⟩

/-- The two states exclude each other. -/
theorem HoldsValue_ne_HoldsError (v : T) (e : E) :
    (HoldsValue v : expected T E) ≠ HoldsError e := by
  simp [HoldsValue, HoldsError]

/-- Swapping two value-holding or two error-holding containers exchanges the payloads. -/
theorem swap_same_state (conv : E → T) (v w : T) (e f : E) :
    swap conv (HoldsValue v) (HoldsValue w) = .returned (HoldsValue w, HoldsValue v) ∧
    swap conv (HoldsError e : expected T E) (HoldsError f)
      = .returned (HoldsError f, HoldsError e) := by
  constructor <;> (simp [swap, HoldsValue, HoldsError]; rfl)

/-- Swapping a value-holding container with an error-holding one leaves both
holding a value. -/
theorem swap_differing_state (conv : E → T) (v : T) (e : E) :
    swap conv (HoldsValue v) (HoldsError e)
      = .returned (HoldsValue (conv e), HoldsValue v) ∧
    swap conv (HoldsError e) (HoldsValue v)
      = .returned (HoldsValue v, HoldsValue (conv e)) := by
  constructor <;> (simp [swap, HoldsValue, HoldsError]; rfl)

/-! ### C1: the discriminant after construction -/

/-- C1: the container built by `expected<int,int>( unexpect, 5 )` has its error
member live, but its discriminant `has_value` was never written: the container is
not well formed and its boolean conversion reads an indeterminate `bool`. -/
theorem unexpect_ctor_leaves_has_value_unwritten :
    (ctor_unexpect id 5 : expected Int Int).contained = .m_error 5 ∧
    (ctor_unexpect id 5 : expected Int Int).has_value = none ∧
    (ctor_unexpect id 5 : expected Int Int).well_formed = false ∧
    (ctor_unexpect id 5 : expected Int Int).to_bool = .undefined := by
  refine ⟨rfl, rfl, rfl, rfl⟩

/-! ### C2: assignment from a container -/

/-- C2: for `expected<int,int>` containers `A` holding error 1 and `B` holding
error 2, the copy assignment and the move assignment `A = B` evaluate `*rhs` on
the error-holding `B` and stop at its `assert( has_value )`: `A` does not come to
hold error 2. -/
theorem assign_error_from_error_stops_at_assert :
    assign_copy false id (HoldsError 1 : expected Int Int) (HoldsError 2)
      = .assertion_failure ∧
    assign_move false id (HoldsError 1 : expected Int Int) (HoldsError 2)
      = .assertion_failure ∧
    assign_copy false id (HoldsError 1 : expected Int Int) (HoldsError 2)
      ≠ .returned (HoldsError 2) := by
  refine ⟨rfl, rfl, ?_⟩
  decide

/-! ### C3, C4: swap -/

/-- C3: for `expected<int,int>` containers `a` holding value 1 and `b` holding
error 2, `a.swap( b )` returns with `a` holding the value 2 and `b` holding the
value 1, and `b.swap( a )` gives the same two containers: no container holds an
error afterwards. -/
theorem swap_value_with_error_leaves_two_values :
    swap id (HoldsValue 1 : expected Int Int) (HoldsError 2)
      = .returned (HoldsValue 2, HoldsValue 1) ∧
    swap id (HoldsError 2 : expected Int Int) (HoldsValue 1)
      = .returned (HoldsValue 1, HoldsValue 2) ∧
    (HoldsValue 2 : expected Int Int) ≠ HoldsError 2 := by
  refine ⟨(swap_differing_state id 1 2).1, (swap_differing_state id 1 2).2, ?_⟩
  decide

/-- C4: for `expected<int,int>` containers `a` holding value 1 and `b` holding
error 2, `a.swap( b )` performed twice returns with `a` holding value 1 and `b`
holding the value 2: `b` does not get its error back. -/
theorem swap_twice_does_not_restore_error :
    (swap id (HoldsValue 1 : expected Int Int) (HoldsError 2)).andThen
        (fun p => swap id p.1 p.2)
      = .returned (HoldsValue 1, HoldsValue 2) ∧
    (HoldsValue 2 : expected Int Int) ≠ HoldsError 2 := by
  refine ⟨?_, by decide⟩
  rw [(swap_differing_state id (1 : Int) (2 : Int)).1]
  exact (swap_same_state id (2 : Int) 1 0 0).1

/-! ### C5: checked access -/

/-- The arms of `value()` as they are written, with `is_same` false: on a
well-formed container the first arm returns the stored value, and the last arm
throws a `bad_expected_access<E>` whose `error()` is the stored error.  Where
`error_type` converts to `std::exception_ptr`, this is `value()`. -/
theorem value_arms_as_written (c : expected T E) (h : c.well_formed = true) :
    ((∃ v, c = HoldsValue v ∧ c.value false = .returned v) ∨
     (∃ e x, c = HoldsError e ∧ c.value false = .thrown x ∧
       c.error = .returned e ∧ x.error = e)) ∧
    c.value_instantiated false true = c.value false := by
  refine ⟨?_, rfl⟩
  rcases well_formed_cases c h with ⟨v, rfl⟩ | ⟨e, rfl⟩
  · exact Or.inl ⟨v, rfl, rfl⟩
  · exact Or.inr ⟨e, ⟨e⟩, rfl, rfl, rfl, rfl⟩

/-- C5: at `expected<int,std::string>`, whose error type is not
`std::exception_ptr` and does not convert to it, `value()` has no instantiation:
on the container holding the error `"x"` no `bad_expected_access` is thrown, and on
the container holding the value 1 nothing is returned.  So it is on every
container whose error type does not convert to `std::exception_ptr`. -/
theorem value_has_no_instantiation_for_plain_error :
    (HoldsError "x" : expected Int String).value_instantiated false false = .ill_formed ∧
    (HoldsValue 1 : expected Int String).value_instantiated false false = .ill_formed ∧
    (∀ x, (HoldsError "x" : expected Int String).value_instantiated false false
      ≠ .thrown x) ∧
    ∀ (T E : Type) (same_as_exception_ptr : Bool) (c : expected T E),
      c.value_instantiated same_as_exception_ptr false = .ill_formed := by
  refine ⟨rfl, rfl, ?_, fun _ _ _ _ => rfl⟩
  intro x hx
  cases hx

/-! ### C6, C7: round trips -/

/-- C7: the container constructed from `make_unexpected( e )`, by the copy form
or by the move form (there with the conversion `conv` of the wrapped type to
`E`), holds the error, its boolean conversion is false and `error()` returns
`e` (the converted `e` in the move form). -/
theorem error_round_trip {U : Type} (conv : U → E) (e : E) (u : U) :
    (ctor_unexpected (make_unexpected e) : expected T E) = HoldsError e ∧
    (ctor_unexpected (make_unexpected e) : expected T E).to_bool = .returned false ∧
    (ctor_unexpected (make_unexpected e) : expected T E).error = .returned e ∧
    (ctor_unexpected_move conv (make_unexpected u) : expected T E) = HoldsError (conv u) ∧
    (ctor_unexpected_move conv (make_unexpected u) : expected T E).to_bool
      = .returned false ∧
    (ctor_unexpected_move conv (make_unexpected u) : expected T E).error
      = .returned (conv u) := by
  refine ⟨rfl, rfl, rfl, rfl, rfl, rfl⟩

/-! ### C8: emplace -/

/-- For a pack of one argument `a`, `emplace( a )` leaves the container holding a
value: `T( a )` on a container that held a value, the converted `a` on a container
that held an error.  For an empty pack, `emplace( il )` does the same with `il`. -/
theorem emplace_one_argument {A U : Type} (make : List A → T) (conv : A → T)
    (make_il : List U → List A → T) (conv_il : List U → T) (v : T) (e : E) (a : A)
    (il : List U) :
    (HoldsValue v : expected T E).emplace make conv [a] = .returned (HoldsValue (make [a])) ∧
    (HoldsError e : expected T E).emplace make conv [a] = .returned (HoldsValue (conv a)) ∧
    (HoldsValue v : expected T E).emplace_il make_il conv_il il []
      = .returned (HoldsValue (make_il il [])) ∧
    (HoldsError e : expected T E).emplace_il make_il conv_il il []
      = .returned (HoldsValue (conv_il il)) :=
  ⟨rfl, rfl, rfl, rfl⟩

/-- C8: for the class `P` with the constructor `P( int a = 0, int b = 0 )`, taken
as the pair of `a` and `b`, and `expected<P,int>`, the call `emplace( 1, 2 )` has
no instantiation, on the container holding a value and on the container holding
an error: the container does not come to hold `P( 1, 2 )`.  So it is for every
pack of two or more arguments, of no argument, and for `emplace( il, a, ... )`. -/
theorem emplace_has_no_instantiation_for_two_arguments :
    (HoldsValue (0, 0) : expected (Int × Int) Int).emplace
        (fun l : List Int => (l.getD 0 0, l.getD 1 0)) (fun a : Int => (a, 0)) [1, 2]
      = .ill_formed ∧
    (HoldsError 5 : expected (Int × Int) Int).emplace
        (fun l : List Int => (l.getD 0 0, l.getD 1 0)) (fun a : Int => (a, 0)) [1, 2]
      = .ill_formed ∧
    (fun l : List Int => (l.getD 0 0, l.getD 1 0)) [1, 2] = ((1, 2) : Int × Int) ∧
    (∀ (T E A : Type) (make : List A → T) (conv : A → T) (c : expected T E) (a b : A)
        (rest : List A),
      c.emplace make conv (a :: b :: rest) = .ill_formed ∧
      c.emplace make conv [] = .ill_formed) ∧
    (∀ (T E A U : Type) (make : List U → List A → T) (conv : List U → T)
        (c : expected T E) (il : List U) (a : A) (rest : List A),
      c.emplace_il make conv il (a :: rest) = .ill_formed) :=
  ⟨rfl, rfl, rfl, fun _ _ _ _ _ _ _ _ _ => ⟨rfl, rfl⟩, fun _ _ _ _ _ _ _ _ _ _ => rfl⟩

/-! ### C9, C10: assignment from a payload -/

/-- The statements of the body of `operator=( U && )` leave a well-formed
container holding the assigned value. -/
theorem assign_value_body_ends_value_holding (v w : T) (e : E) :
    (HoldsValue w : expected T E).assign_value_body v = .returned (HoldsValue v) ∧
    (HoldsError e : expected T E).assign_value_body v = .returned (HoldsValue v) :=
  ⟨rfl, rfl⟩

/-- The assignment from an `unexpected_type const &` returns on no container. -/
theorem assign_unexpected_never_returns (c : expected T E) (u : unexpected_type E)
    (r : expected T E) : c.assign_unexpected u ≠ .returned r := by
  obtain ⟨d, s⟩ := c
  rcases d with _ | _ | _ <;> cases s <;> (intro h; cases h)

/-- C9: for the default-constructed `expected<int,std::string>` and the wrapper `u`
of `"x"`, the assignment `c = u` by the overload for `unexpected_type const &` runs
to the end of the body, where no `return` is: its behaviour is undefined; the
assignment by the overload for `unexpected_type &&` has no instantiation.  On no
container does either of them return with the container holding the error. -/
theorem assign_unexpected_flows_off_the_end :
    (ctor_default : expected Int String).assign_unexpected (make_unexpected "x")
      = .undefined ∧
    (HoldsError "y" : expected Int String).assign_unexpected (make_unexpected "x")
      = .undefined ∧
    (ctor_default : expected Int String).assign_unexpected_move (make_unexpected "x")
      = .ill_formed ∧
    ∀ (T E : Type) (c : expected T E) (u : unexpected_type E),
      c.assign_unexpected u ≠ .returned (HoldsError u.value) ∧
      c.assign_unexpected_move u = .ill_formed :=
  ⟨rfl, rfl, rfl, fun _ _ c u => ⟨assign_unexpected_never_returns c u _, rfl⟩⟩

/-- C10: for `expected<int,std::string>`, the assignment `c = 7` of a bare value has
no instantiation, on the container holding the error `"x"` and on the
default-constructed one: the container does not come to hold 7.  So it is for
every container and every value. -/
theorem assign_value_has_no_instantiation :
    (HoldsError "x" : expected Int String).assign_value 7 = .ill_formed ∧
    (ctor_default : expected Int String).assign_value 7 = .ill_formed ∧
    ∀ (T E : Type) (c : expected T E) (v : T), c.assign_value v = .ill_formed :=
  ⟨rfl, rfl, fun _ _ _ _ => rfl⟩

/-! ### C11: value_or -/

/-- C11: `value_or( d )`, on a persistent and on a temporary receiver, returns the
stored value when the container holds a value and `d` converted to `T` when it
holds an error; in both states the call returns. -/
theorem value_or_gives_value_or_default {U : Type} (conv : U → T) (v : T) (e : E) (d : U) :
    (HoldsValue v : expected T E).value_or conv d = .returned v ∧
    (HoldsValue v : expected T E).value_or_move conv d = .returned v ∧
    (HoldsError e : expected T E).value_or conv d = .returned (conv d) ∧
    (HoldsError e : expected T E).value_or_move conv d = .returned (conv d) :=
  ⟨rfl, rfl, rfl, rfl⟩

/-- The scenario of `value_or`: payload 5 gives `value_or( 9 ) == 5`, an error-holding
container gives `value_or( 9 ) == 9`. -/
theorem value_or_scenario :
    (HoldsValue 5 : expected Int String).value_or (fun n : Int => n) 9 = .returned 5 ∧
    (HoldsError "x" : expected Int String).value_or (fun n : Int => n) 9 = .returned 9 :=
  ⟨rfl, rfl⟩

/-! ### C12: has_exception -/

/-- The second argument of the trait in `has_exception` is a reference type, so the
trait is false whatever `Ex` and `E` are. -/
theorem is_base_of_get_unexpected_value_type (inherits : String → String → Bool)
    (Ex error_type : cpp_type) :
    is_base_of inherits Ex (get_unexpected_value_type error_type) = false := by
  cases Ex <;> rfl

/-- C12: for the `expected<int,std::string>` holding the error `"x"`,
`has_exception<std::string>()` returns false although the error is of the queried
type; and on no container, for no `Ex`, does `has_exception<Ex>()` return true. -/
theorem has_exception_is_never_true :
    (HoldsError "x" : expected Int String).has_exception (fun _ _ => false)
        (.class_type "std::string") (.class_type "std::string") = .returned false ∧
    ∀ (T E : Type) (inherits : String → String → Bool) (Ex error_type : cpp_type)
      (c : expected T E), c.has_exception inherits Ex error_type ≠ .returned true := by
  refine ⟨rfl, ?_⟩
  intro T E inherits Ex error_type c
  obtain ⟨d, s⟩ := c
  cases d with
  | none => simp [has_exception, to_bool, read_has_value, bind, Outcome.andThen]
  | some b =>
    simp [has_exception, to_bool, read_has_value, bind, Outcome.andThen, pure,
      is_base_of_get_unexpected_value_type]

/-! ### C13: construction with the unexpect tag -/

/-- C13: the container built by `expected<int,int>( unexpect, 5 )`, and the one built
by the overload with an initializer list, is not the container holding the error
5: its discriminant was never written, so the boolean conversion and the assert of
`error()` read an indeterminate `bool`. -/
theorem unexpect_ctor_is_not_error_holding :
    (ctor_unexpect id 5 : expected Int Int) ≠ HoldsError 5 ∧
    (ctor_unexpect id 5 : expected Int Int).to_bool = .undefined ∧
    (ctor_unexpect id 5 : expected Int Int).error = .undefined ∧
    (ctor_unexpect_il (fun (l : List Int) (n : Int) => l.sum + n) [1, 2] 2 : expected Int Int)
      ≠ HoldsError 5 ∧
    (ctor_unexpect_il (fun (l : List Int) (n : Int) => l.sum + n) [1, 2] 2
      : expected Int Int).to_bool = .undefined := by
  refine ⟨by decide, rfl, rfl, by decide, rfl⟩

/-! ### C14: copy construction -/

/-- C14: the container copy-constructed, or move-constructed, from a well-formed
container `s` is `s` again: the same state and an equal live payload.  The source
is read only. -/
theorem copy_construction_replicates_source (s : expected T E) (h : s.well_formed = true) :
    ctor_copy s = .returned s ∧ ctor_move s = .returned s := by
  rcases well_formed_cases s h with ⟨v, rfl⟩ | ⟨e, rfl⟩ <;> exact ⟨rfl, rfl⟩

/-- C14 at the `expected<int,std::string>` holding the error `"x"`. -/
theorem copy_construction_replicates_source_witness :
    (HoldsError "x" : expected Int String).well_formed = true ∧
    ctor_copy (HoldsError "x" : expected Int String) = .returned (HoldsError "x") ∧
    ctor_move (HoldsError "x" : expected Int String) = .returned (HoldsError "x") :=
  ⟨rfl, copy_construction_replicates_source (HoldsError "x") rfl⟩

/-! ### C15: value() at the exception handle -/

/-- The accessors `operator*` and `error()`: `operator*` returns `v` exactly on the
container that holds the value `v`, and `error()` returns `e` exactly on the
container that holds the error `e`; on a container in the other state each of them
stops at its assert. -/
theorem deref_and_error_guarded_by_state (c : expected T E) (v : T) (e : E) :
    (c.deref = .returned v ↔ c = HoldsValue v) ∧
    (c.error = .returned e ↔ c = HoldsError e) ∧
    (HoldsError e : expected T E).deref = .assertion_failure ∧
    (HoldsValue v : expected T E).error = .assertion_failure := by
  refine ⟨?_, ?_, rfl, rfl⟩ <;>
  · obtain ⟨d, s⟩ := c
    rcases d with _ | _ | _ <;> cases s <;>
      simp [deref, error, read_has_value, bind, Outcome.andThen, HoldsValue,
        HoldsError, expected_detail.storage_t.value, expected_detail.storage_t.error]

/-- C17: for the `expected<std::string,int>` holding the value `"ab"`, `operator->`
has no instantiation, so it does not yield the stored value; on the container
holding an error it does not reach its assert.  So it is for every container:
`value_ptr()` of the storage is ill-formed. -/
theorem arrow_has_no_instantiation :
    (HoldsValue "ab" : expected String Int).arrow = .ill_formed ∧
    (HoldsValue "ab" : expected String Int).arrow ≠ .returned "ab" ∧
    (HoldsError 1 : expected String Int).arrow = .ill_formed ∧
    (HoldsValue "ab" : expected String Int).deref = .returned "ab" ∧
    ∀ (T E : Type) (c : expected T E),
      c.contained.value_ptr = .ill_formed ∧ c.arrow = .ill_formed :=
  ⟨rfl, by decide, rfl, rfl, fun _ _ _ => ⟨rfl, rfl⟩⟩

/-- On the container holding the error `e`, `get_unexpected()` returns a wrapper
whose `value()` is `e`, the result of `error()`. -/
theorem get_unexpected_on_error (e : E) :
    (HoldsError e : expected T E).get_unexpected = .returned (make_unexpected e) ∧
    (make_unexpected e).value = e ∧
    (HoldsError e : expected T E).error = .returned e :=
  ⟨rfl, rfl, rfl⟩

/-- C18: on the `expected<int,int>` holding the value 1, `get_unexpected()` has no
assert to stop at: it reads the error member, which is not live; `error()` on the
same container stops at its assert. -/
theorem get_unexpected_on_value_has_no_assert :
    (HoldsValue 1 : expected Int Int).get_unexpected = .undefined ∧
    (HoldsValue 1 : expected Int Int).get_unexpected ≠ .assertion_failure ∧
    (HoldsValue 1 : expected Int Int).error = .assertion_failure := by
  refine ⟨rfl, by decide, rfl⟩

/-! ### C20: equality of containers -/

/-- C20: `x == y` is true for two error-holding containers whatever their errors
are, is the `==` of the values for two value-holding containers, and is false when
the states differ; `x != y` is the negation in each case. -/
theorem eq_ignores_error_payload (eqT : T → T → Bool) (v w : T) (e f : E) :
    eq eqT (HoldsError e : expected T E) (HoldsError f) = .returned true ∧
    eq eqT (HoldsValue v : expected T E) (HoldsValue w) = .returned (eqT v w) ∧
    eq eqT (HoldsValue v : expected T E) (HoldsError e) = .returned false ∧
    eq eqT (HoldsError e : expected T E) (HoldsValue v) = .returned false ∧
    ne eqT (HoldsError e : expected T E) (HoldsError f) = .returned false ∧
    ne eqT (HoldsValue v : expected T E) (HoldsValue w) = .returned (!eqT v w) ∧
    ne eqT (HoldsValue v : expected T E) (HoldsError e) = .returned true ∧
    ne eqT (HoldsError e : expected T E) (HoldsValue v) = .returned true :=
  ⟨rfl, rfl, rfl, rfl, rfl, rfl, rfl, rfl⟩

/-! ### C21: ordering of containers -/

/-- The `<` and `==` of the integers: of `v < w`, `v == w`, `w < v` exactly one holds. -/
theorem exactly_one_int (v w : Int) :
    exactly_one (decide (v < w)) (decide (v = w)) (decide (w < v)) = true := by
  rcases lt_trichotomy v w with h | h | h
  · have h1 : ¬ v = w := ne_of_lt h
    have h2 : ¬ w < v := not_lt_of_gt h
    simp [exactly_one, h, h1, h2]
  · subst h
    simp [exactly_one]
  · have h1 : ¬ v = w := ne_of_gt h
    have h2 : ¬ v < w := not_lt_of_gt h
    simp [exactly_one, h, h1, h2]

/-- C21: when of `v < w`, `v == w`, `w < v` exactly one holds for all values of `T`,
then for two well-formed containers the six comparisons return, `x <= y` is
`x < y` or `x == y`, `x >= y` is `y <= x`, `x > y` is `y < x`, and exactly one of
`x < y`, `x == y`, `y < x` holds; a container holding an error is less than a
container holding a value, and not the other way round. -/
theorem ordering_coherent_with_equality (ltT eqT : T → T → Bool)
    (h : ∀ v w : T, exactly_one (ltT v w) (eqT v w) (ltT w v) = true)
    (x y : expected T E) (hx : x.well_formed = true) (hy : y.well_formed = true) :
    (∃ l e g : Bool,
      lt ltT x y = .returned l ∧ eq eqT x y = .returned e ∧ lt ltT y x = .returned g ∧
      gt ltT x y = .returned g ∧
      le ltT x y = .returned (l || e) ∧
      ge ltT x y = le ltT y x ∧
      exactly_one l e g = true) ∧
    (∀ (e : E) (v : T),
      lt ltT (HoldsError e : expected T E) (HoldsValue v) = .returned true ∧
      lt ltT (HoldsValue v : expected T E) (HoldsError e) = .returned false) := by
  refine ⟨?_, fun _ _ => ⟨rfl, rfl⟩⟩
  rcases well_formed_cases x hx with ⟨v, rfl⟩ | ⟨e, rfl⟩ <;>
    rcases well_formed_cases y hy with ⟨w, rfl⟩ | ⟨f, rfl⟩
  · refine ⟨ltT v w, eqT v w, ltT w v, rfl, rfl, rfl, rfl, ?_, rfl, h v w⟩
    have hvw := h v w
    have e1 : (!ltT w v) = (ltT v w || eqT v w) := by
      revert hvw
      cases ltT v w <;> cases eqT v w <;> cases ltT w v <;> simp [exactly_one]
    show Outcome.returned (!ltT w v) = _
    rw [e1]
  · exact ⟨false, false, true, rfl, rfl, rfl, rfl, rfl, rfl, rfl⟩
  · exact ⟨true, false, false, rfl, rfl, rfl, rfl, rfl, rfl, rfl⟩
  · exact ⟨false, true, false, rfl, rfl, rfl, rfl, rfl, rfl, rfl⟩

/-- C21 at `expected<int,std::string>`, for the container holding the error `"x"`
and the container holding the value 1. -/
theorem ordering_coherent_with_equality_witness :
    (∀ v w : Int, exactly_one (decide (v < w)) (decide (v = w)) (decide (w < v)) = true) ∧
    (HoldsError "x" : expected Int String).well_formed = true ∧
    (HoldsValue 1 : expected Int String).well_formed = true ∧
    ((∃ l e g : Bool,
      lt (fun a b : Int => decide (a < b)) (HoldsError "x" : expected Int String)
        (HoldsValue 1) = .returned l ∧
      eq (fun a b : Int => decide (a = b)) (HoldsError "x" : expected Int String)
        (HoldsValue 1) = .returned e ∧
      lt (fun a b : Int => decide (a < b)) (HoldsValue 1 : expected Int String)
        (HoldsError "x") = .returned g ∧
      gt (fun a b : Int => decide (a < b)) (HoldsError "x" : expected Int String)
        (HoldsValue 1) = .returned g ∧
      le (fun a b : Int => decide (a < b)) (HoldsError "x" : expected Int String)
        (HoldsValue 1) = .returned (l || e) ∧
      ge (fun a b : Int => decide (a < b)) (HoldsError "x" : expected Int String)
        (HoldsValue 1)
        = le (fun a b : Int => decide (a < b)) (HoldsValue 1) (HoldsError "x") ∧
      exactly_one l e g = true) ∧
    (∀ (e : String) (v : Int),
      lt (fun a b : Int => decide (a < b)) (HoldsError e : expected Int String)
        (HoldsValue v) = .returned true ∧
      lt (fun a b : Int => decide (a < b)) (HoldsValue v : expected Int String)
        (HoldsError e) = .returned false)) :=
  ⟨exactly_one_int, rfl, rfl,
    ordering_coherent_with_equality (fun a b : Int => decide (a < b))
      (fun a b : Int => decide (a = b)) exactly_one_int (HoldsError "x") (HoldsValue 1)
      rfl rfl⟩

/-! ### C22: comparison with a bare value -/

/-- The mirror pairs of the comparisons with a bare value that agree: `x > v` is
`v < x` in both states, and `v > x` is `x < v` on a container holding a value. -/
theorem mixed_comparison_mirror (ltT : T → T → Bool) (v w : T) (e : E) :
    gt_value ltT (HoldsValue w : expected T E) v = value_lt ltT v (HoldsValue w) ∧
    gt_value ltT (HoldsError e : expected T E) v = value_lt ltT v (HoldsError e) ∧
    value_gt ltT v (HoldsValue w : expected T E) = lt_value ltT (HoldsValue w) v :=
  ⟨rfl, rfl, rfl⟩

/-- C22: for the `expected<int,std::string>` holding the error `"e"` and the bare
value 0, `v > x` returns false while `x < v` returns true; so it is for every
error and every bare value.  `v >= x` returns true and `v == x` false there. -/
theorem value_gt_differs_from_lt_value_on_error :
    value_gt (fun a b : Int => decide (a < b)) 0 (HoldsError "e" : expected Int String)
      = .returned false ∧
    lt_value (fun a b : Int => decide (a < b)) (HoldsError "e" : expected Int String) 0
      = .returned true ∧
    value_ge (fun a b : Int => decide (a < b)) 0 (HoldsError "e" : expected Int String)
      = .returned true ∧
    value_eq (fun a b : Int => decide (a = b)) 0 (HoldsError "e" : expected Int String)
      = .returned false ∧
    ∀ (T E : Type) (ltT : T → T → Bool) (v : T) (e : E),
      value_gt ltT v (HoldsError e : expected T E) = .returned false ∧
      lt_value ltT (HoldsError e : expected T E) v = .returned true :=
  ⟨rfl, rfl, rfl, rfl, fun _ _ _ _ _ => ⟨rfl, rfl⟩⟩

end expected

/-! ### C16: make_expected_from_call -/

/-- C16: `make_expected_from_call( f )` has no instantiation, for a callable that
returns 1 and for a callable that raises `"boom"`: no container holding 1, and no
container holding the handle of the raised exception, is returned.  So it is for
every callable; `make_expected( v )` has no instantiation either. -/
theorem make_expected_from_call_has_no_instantiation :
    make_expected_from_call (fun _ => (.ok 1 : Except String Int)) = .ill_formed ∧
    make_expected_from_call (fun _ => (.error "boom" : Except String Int)) = .ill_formed ∧
    make_expected_from_call (fun _ => (.ok 1 : Except String Int))
      ≠ .returned (expected.HoldsValue 1) ∧
    (∀ (R X : Type) (f : Unit → Except X R), make_expected_from_call f = .ill_formed) ∧
    (∀ (T X : Type) (v : T),
      (make_expected v : Outcome (exception_ptr X) (expected T (exception_ptr X)))
        = .ill_formed) :=
  ⟨rfl, rfl, by decide, fun _ _ _ => rfl, fun _ _ _ => rfl⟩

/-! ### C19: comparison of wrapped exception handles -/

/-- C19, as stated, fails: two `unexpected_type<std::exception_ptr>` that carry the
same handle compare `<=` and `>=` as true. -/
theorem le_ge_exception_ptr_true_on_same_handle :
    unexpected_type.le_exception_ptr
      (⟨.refers_to 0⟩ : unexpected_type (exception_ptr Nat)) ⟨.refers_to 0⟩ = true ∧
    unexpected_type.ge_exception_ptr
      (⟨.refers_to 0⟩ : unexpected_type (exception_ptr Nat)) ⟨.refers_to 0⟩ = true ∧
    unexpected_type.le_exception_ptr
      (⟨.null⟩ : unexpected_type (exception_ptr Nat)) ⟨.null⟩ = true := by
  decide

/-- C19, amended: for two `unexpected_type<std::exception_ptr>` values, `x < y` and
`x > y` are false whatever the handles are, `x <= y` and `x >= y` are `x == y`, and
`x == y` is the equality of the two handles. -/
theorem exception_ptr_wrappers_compare_by_equality {X : Type} [DecidableEq X]
    (x y : unexpected_type (exception_ptr X)) :
    unexpected_type.lt_exception_ptr x y = false ∧
    unexpected_type.gt_exception_ptr x y = false ∧
    unexpected_type.le_exception_ptr x y = unexpected_type.eq_exception_ptr x y ∧
    unexpected_type.ge_exception_ptr x y = unexpected_type.eq_exception_ptr x y ∧
    unexpected_type.eq_exception_ptr x y = exception_ptr.eq x.value y.value ∧
    (unexpected_type.eq_exception_ptr x y = true ↔ x.value = y.value) := by
  refine ⟨rfl, rfl, rfl, rfl, rfl, ?_⟩
  simp [unexpected_type.eq_exception_ptr, unexpected_type.eq, exception_ptr.eq]

/-! ### C23: hash -/

/-- C23: when `std::hash<T>` gives equal hashes to values that are `==`, two
containers that compare `==` have the same hash; a container holding an error
hashes to 0 and a container holding the value `v` to the hash of `v`. -/
theorem hash_respects_equality {T X : Type} (eqT : T → T → Bool) (hashT : T → Nat)
    (hh : ∀ v w : T, eqT v w = true → hashT v = hashT w)
    (x y : expected T (exception_ptr X))
    (hxy : expected.eq eqT x y = .returned true) :
    (∃ n : Nat, std.hash hashT x = .returned n ∧ std.hash hashT y = .returned n) ∧
    (∀ p : exception_ptr X, std.hash hashT (expected.HoldsError p) = .returned 0) ∧
    (∀ v : T, std.hash hashT (expected.HoldsValue v : expected T (exception_ptr X))
      = .returned (hashT v)) := by
  refine ⟨?_, fun _ => rfl, fun _ => rfl⟩
  obtain ⟨dx, sx⟩ := x
  obtain ⟨dy, sy⟩ := y
  rcases dx with _ | _ | _ <;> rcases dy with _ | _ | _
  all_goals try
    (simp [expected.eq, expected.to_bool, expected.read_has_value, bind, Outcome.andThen,
      pure] at hxy; done)
  · exact ⟨0, rfl, rfl⟩
  · cases sx <;> cases sy
    all_goals try
      (simp [expected.eq, expected.to_bool, expected.read_has_value, expected.deref,
        expected_detail.storage_t.value, bind, Outcome.andThen, pure] at hxy; done)
    rename_i v w
    have hvw : eqT v w = true := by
      simpa [expected.eq, expected.to_bool, expected.read_has_value, expected.deref,
        expected_detail.storage_t.value, bind, Outcome.andThen, pure] using hxy
    refine ⟨hashT v, rfl, ?_⟩
    show Outcome.returned (hashT w) = Outcome.returned (hashT v)
    rw [hh v w hvw]

/-- C23 at `expected<int>`: two containers holding different handles compare `==`
and both hash to 0. -/
theorem hash_respects_equality_witness :
    (∀ v w : Int, decide (v = w) = true → Int.natAbs v = Int.natAbs w) ∧
    expected.eq (fun a b : Int => decide (a = b))
      (expected.HoldsError (.refers_to 1) : expected Int (exception_ptr Nat))
      (expected.HoldsError (.refers_to 2)) = .returned true ∧
    ((∃ n : Nat,
      std.hash Int.natAbs
        (expected.HoldsError (.refers_to 1) : expected Int (exception_ptr Nat))
        = .returned n ∧
      std.hash Int.natAbs
        (expected.HoldsError (.refers_to 2) : expected Int (exception_ptr Nat))
        = .returned n) ∧
    (∀ p : exception_ptr Nat,
      std.hash Int.natAbs (expected.HoldsError p : expected Int (exception_ptr Nat))
        = .returned 0) ∧
    (∀ v : Int, std.hash Int.natAbs
      (expected.HoldsValue v : expected Int (exception_ptr Nat))
        = .returned (Int.natAbs v))) :=
  ⟨fun v w h => by rw [of_decide_eq_true h], rfl,
    hash_respects_equality (fun a b : Int => decide (a = b)) Int.natAbs
      (fun v w h => by rw [of_decide_eq_true h])
      (expected.HoldsError (.refers_to 1)) (expected.HoldsError (.refers_to 2)) rfl⟩

end nonstd
